import Mathlib

/-!
Verification of the data-aggregation and filtering layer of the car-showroom
sales dashboard (`carshowroom_dashboard1.py`).

The dashboard loads a CSV of sale records, derives Year / Month / MonthName
columns from the SaleDate column, filters the table by multiselect choices for
Year, City and FuelType, and renders group-by aggregations (counts, revenue
sums, price means) and a City x FuelType cross-tabulation.

The embedding below models a dataframe as a `List SaleRecord`, the `isin`-based
boolean mask of lines 115-119 as a `List.filter`, the pandas `groupby`
aggregations as maps over the sorted distinct key values, and `pd.crosstab` as
a dense counts matrix over the sorted distinct row/column labels.  Prices are
modelled as rationals so that the mean `sum / count` is exact.
-/

namespace CarShowroom

/-- A calendar date, the result of `pd.to_datetime` on the SaleDate column. -/
structure Date where
  year : Nat
  month : Nat
  day : Nat
deriving DecidableEq, Repr

/-- The fixed calendar-order month labels, `month_order` at line 163 of the
source. -/
def month_order : List String :=
  ["Jan", "Feb", "Mar", "Apr", "May", "Jun",
   "Jul", "Aug", "Sep", "Oct", "Nov", "Dec"]

/-- `strftime("%b")`: the fixed three-letter abbreviation of month `m`
(1 to 12). -/
def monthAbbrev (m : Nat) : String := month_order.getD (m - 1) ""

/-- One raw CSV row of `car_showroom_data.csv`, after date parsing but before
the derived columns are added. -/
structure RawRow where
  saleDate : Date
  city : String
  fuelType : String
  carModel : String
  price : ℚ
  salesPersonID : String
deriving DecidableEq, Repr

/-- One row of the loaded dataframe: the raw columns together with the
derived Year (string form), Month (1-12) and MonthName columns added by
`load_data` (lines 96-103). -/
structure SaleRecord where
  saleDate : Date
  year : String
  month : Nat
  monthName : String
  city : String
  fuelType : String
  carModel : String
  price : ℚ
  salesPersonID : String
deriving DecidableEq, Repr

/-- The derivation step of `load_data` for one row: `Year` is
`SaleDate.dt.year.astype(str)`, `Month` is `SaleDate.dt.month`, `MonthName`
is `SaleDate.dt.strftime("%b")`. -/
def mkRecord (r : RawRow) : SaleRecord where
  saleDate := r.saleDate
  year := toString r.saleDate.year
  month := r.saleDate.month
  monthName := monthAbbrev r.saleDate.month
  city := r.city
  fuelType := r.fuelType
  carModel := r.carModel
  price := r.price
  salesPersonID := r.salesPersonID

/-- `load_data` (lines 96-103): parse every row and add the derived
columns.  CSV reading and date parsing are external collaborators; the rows
they produce are the input. -/
def load_data (rows : List RawRow) : List SaleRecord := rows.map mkRecord

/-- Code-point lexicographic comparison of character lists, modelling
python's string ordering. -/
def charsLe : List Char → List Char → Bool
  | [], _ => true
  | _ :: _, [] => false
  | a :: as, b :: bs =>
    if a.val < b.val then true
    else if b.val < a.val then false
    else charsLe as bs

/-- Boolean string comparison used to model python's `sorted` on strings. -/
def strLe (a b : String) : Bool := charsLe a.data b.data

/-- `sorted(df[col].unique())` (lines 111-113) and the sorted group keys of
pandas `groupby` / `crosstab`: the distinct values a field takes on the
records, in sorted order. -/
def sortedUnique (f : SaleRecord → String) (rs : List SaleRecord) : List String :=
  ((rs.map f).dedup).insertionSort (fun a b => strLe a b = true)

/-- The boolean mask of lines 116-118:
`Year.isin(year) & City.isin(city) & FuelType.isin(fuel)`. -/
def matchesFilter (selYears selCities selFuels : List String) (r : SaleRecord) : Bool :=
  selYears.contains r.year && selCities.contains r.city && selFuels.contains r.fuelType

/-- `filtered_df` (lines 115-119): the subsequence of records whose Year,
City and FuelType all lie in the selected sets. -/
def filterRecords (rs : List SaleRecord) (selYears selCities selFuels : List String) :
    List SaleRecord :=
  rs.filter (matchesFilter selYears selCities selFuels)

/-- `yearly_sales` (line 156): `groupby("Year").size()`, one (year, count)
pair per distinct year. -/
def countByYear (rs : List SaleRecord) : List (String × Nat) :=
  (sortedUnique (fun r => r.year) rs).map
    (fun y => (y, rs.countP (fun r => r.year == y)))

/-- Lexicographic boolean comparison on (Year, MonthName) group keys. -/
def pairLe (a b : String × String) : Bool :=
  if a.1 = b.1 then strLe a.2 b.2 else strLe a.1 b.1

/-- `monthly_sales` (lines 162-164): the grouped counts together with the
ordered categorical month labels imposed by
`pd.Categorical(..., categories=month_order, ordered=True)`. -/
structure MonthlySales where
  entries : List (String × String × Nat)
  monthLabels : List String
deriving DecidableEq, Repr

/-- `groupby(["Year","MonthName"]).size()` plus the categorical month axis
(lines 162-164): one (year, monthName, count) triple per distinct pair, and
the fixed calendar-order label set. -/
def countByYearMonth (rs : List SaleRecord) : MonthlySales where
  entries :=
    (((rs.map (fun r => (r.year, r.monthName))).dedup).insertionSort
        (fun a b => pairLe a b = true)).map
      (fun ym => (ym.1, ym.2, rs.countP (fun r => r.year == ym.1 && r.monthName == ym.2)))
  monthLabels := month_order

/-- One output row of `groupby(key).agg(count, sum, mean)` as in
`city_summary` (lines 178-182). -/
structure GroupRow where
  key : String
  count : Nat
  sum : ℚ
  mean : ℚ
deriving DecidableEq, Repr

/-- `groupby(keyField).agg(("Price","count"), ("Price","sum"),
("Price","mean"))` as used for `city_summary` (lines 178-182), `model_perf`
(lines 190-193) and `sales_perf` (lines 215-218): one row per distinct key
value, with the count, the price sum and the price mean of its group. -/
def groupSummary (key : SaleRecord → String) (rs : List SaleRecord) : List GroupRow :=
  (sortedUnique key rs).map (fun k =>
    let grp := rs.filter (fun r => key r == k)
    let s : ℚ := (grp.map (fun r => r.price)).sum
    { key := k, count := grp.length, sum := s, mean := s / (grp.length : ℚ) })

/-- The dense counts matrix produced by `pd.crosstab` (line 226): sorted
distinct row labels, sorted distinct column labels, and one row of cells per
row label. -/
structure CrossTab where
  rowLabels : List String
  colLabels : List String
  cells : List (List Nat)
deriving DecidableEq, Repr

/-- `cross_df = pd.crosstab(filtered_df["City"], filtered_df["FuelType"])`
(line 226), generalised over the two categorical fields: cell (r, c) counts
the records with rowField r and colField c, and every (label, label) pair
has a cell. -/
def crossTabulate (rowF colF : SaleRecord → String) (rs : List SaleRecord) : CrossTab where
  rowLabels := sortedUnique rowF rs
  colLabels := sortedUnique colF rs
  cells :=
    (sortedUnique rowF rs).map (fun rl =>
      (sortedUnique colF rs).map (fun cl =>
        rs.countP (fun r => rowF r == rl && colF r == cl)))

/-! Concrete sample data, the scenario of spec section 8. -/

/-- Sample record: 2023, Delhi, Petrol, price 500000. -/
def rec1 : SaleRecord where
  saleDate := ⟨2023, 1, 5⟩
  year := "2023"
  month := 1
  monthName := "Jan"
  city := "Delhi"
  fuelType := "Petrol"
  carModel := "Alpha"
  price := 500000
  salesPersonID := "S1"

/-- Sample record: 2023, Mumbai, Diesel, price 700000. -/
def rec2 : SaleRecord where
  saleDate := ⟨2023, 2, 10⟩
  year := "2023"
  month := 2
  monthName := "Feb"
  city := "Mumbai"
  fuelType := "Diesel"
  carModel := "Beta"
  price := 700000
  salesPersonID := "S2"

/-- Sample record: 2024, Delhi, Petrol, price 550000. -/
def rec3 : SaleRecord where
  saleDate := ⟨2024, 3, 15⟩
  year := "2024"
  month := 3
  monthName := "Mar"
  city := "Delhi"
  fuelType := "Petrol"
  carModel := "Alpha"
  price := 550000
  salesPersonID := "S1"

/-- The three-record dataset of spec section 8. -/
def sampleRecords : List SaleRecord := [rec1, rec2, rec3]

/-- A concrete raw CSV row used in witnesses. -/
def row1 : RawRow where
  saleDate := ⟨2023, 1, 5⟩
  city := "Delhi"
  fuelType := "Petrol"
  carModel := "Alpha"
  price := 500000
  salesPersonID := "S1"

/-- The single group-summary row of the one-record Delhi dataset. -/
def delhiRow : GroupRow where
  key := "Delhi"
  count := 1
  sum := 500000
  mean := 500000

/-! Basic lemmas about `sortedUnique`. -/

/-- Membership in `sortedUnique f rs` is exactly "some record has this
field value". -/
theorem mem_sortedUnique (f : SaleRecord → String) (rs : List SaleRecord) (s : String) :
    s ∈ sortedUnique f rs ↔ ∃ r ∈ rs, f r = s := by
  unfold sortedUnique
  rw [(List.perm_insertionSort _ _).mem_iff, List.mem_dedup, List.mem_map]

/-- `sortedUnique` has no duplicate values. -/
theorem nodup_sortedUnique (f : SaleRecord → String) (rs : List SaleRecord) :
    (sortedUnique f rs).Nodup := by
  unfold sortedUnique
  exact ((List.perm_insertionSort _ _).nodup_iff).mpr (List.nodup_dedup _)

/-! Claim C1: filter semantics and order preservation. -/

/-- C1: with non-empty selections for all three dimensions, `filtered_df`
keeps a record iff its Year is selected and its City is selected and its
FuelType is selected, and the output is an order-preserving subsequence of
the input. -/
theorem filter_keeps_iff_and_preserves_order
    (rs : List SaleRecord) (sy sc sf : List String)
    (hy : sy ≠ []) (hc : sc ≠ []) (hf : sf ≠ []) :
    (filterRecords rs sy sc sf).Sublist rs ∧
      ∀ r, r ∈ filterRecords rs sy sc sf ↔
        r ∈ rs ∧ r.year ∈ sy ∧ r.city ∈ sc ∧ r.fuelType ∈ sf := by
  refine ⟨List.filter_sublist rs, fun r => ?_⟩
  simp [filterRecords, matchesFilter, List.mem_filter, List.elem_iff, and_assoc]

/-- Witness for C1 at the spec's three-record scenario. -/
theorem filter_keeps_iff_and_preserves_order_witness :
    (["2023"] : List String) ≠ [] ∧ (["Delhi", "Mumbai"] : List String) ≠ [] ∧
      (["Petrol", "Diesel"] : List String) ≠ [] ∧
      (filterRecords sampleRecords ["2023"] ["Delhi", "Mumbai"]
        ["Petrol", "Diesel"]).Sublist sampleRecords ∧
      (rec3 ∈ filterRecords sampleRecords ["2023"] ["Delhi", "Mumbai"] ["Petrol", "Diesel"] ↔
        rec3 ∈ sampleRecords ∧ rec3.year ∈ ["2023"] ∧ rec3.city ∈ ["Delhi", "Mumbai"] ∧
          rec3.fuelType ∈ ["Petrol", "Diesel"]) := by
  have h := filter_keeps_iff_and_preserves_order sampleRecords ["2023"] ["Delhi", "Mumbai"]
    ["Petrol", "Diesel"] (by decide) (by decide) (by decide)
  exact ⟨by decide, by decide, by decide, h.1, h.2 rec3⟩

/-! Claim C4: an empty selection empties the result. -/

/-- C4: an empty selected set in any single dimension makes `filtered_df`
empty, whatever the other two selections are. -/
theorem filter_empty_dimension (rs : List SaleRecord) (sy sc sf : List String) :
    filterRecords rs [] sc sf = [] ∧ filterRecords rs sy [] sf = [] ∧
      filterRecords rs sy sc [] = [] := by
  refine ⟨?_, ?_, ?_⟩ <;> simp [filterRecords, matchesFilter]

/-! Claim C9: filtering is idempotent. -/

/-- C9: applying `filtered_df`'s selection twice with the same selected sets
equals applying it once. -/
theorem filter_idempotent (rs : List SaleRecord) (sy sc sf : List String) :
    filterRecords (filterRecords rs sy sc sf) sy sc sf = filterRecords rs sy sc sf :=
  List.filter_eq_self.mpr (fun a ha => (List.mem_filter.mp ha).2)

/-! Claim C10: the sidebar's default selections keep everything. -/

/-- C10: with the default selections (all distinct Years, Cities and
FuelTypes present in the data, as built at lines 111-113), `filtered_df` is
the whole dataset unchanged. -/
theorem filter_default_identity (rs : List SaleRecord) :
    filterRecords rs (sortedUnique (fun r => r.year) rs)
      (sortedUnique (fun r => r.city) rs) (sortedUnique (fun r => r.fuelType) rs) = rs := by
  apply List.filter_eq_self.mpr
  intro a ha
  have hy : a.year ∈ sortedUnique (fun r => r.year) rs :=
    (mem_sortedUnique _ rs _).mpr ⟨a, ha, rfl⟩
  have hc : a.city ∈ sortedUnique (fun r => r.city) rs :=
    (mem_sortedUnique _ rs _).mpr ⟨a, ha, rfl⟩
  have hf : a.fuelType ∈ sortedUnique (fun r => r.fuelType) rs :=
    (mem_sortedUnique _ rs _).mpr ⟨a, ha, rfl⟩
  simp [matchesFilter, List.elem_iff, hy, hc, hf]

/-! Counting helpers used for the cross-tabulation invariants. -/

/-- Sums of pointwise sums of two mapped functions split. -/
theorem sum_map_add_nat (f g : String → Nat) (cs : List String) :
    (cs.map (fun c => f c + g c)).sum = (cs.map f).sum + (cs.map g).sum := by
  induction cs with
  | nil => simp
  | cons a t ih =>
    simp [ih]
    omega

/-- Over a duplicate-free list containing `x`, the indicator of `x` sums
to one. -/
theorem sum_map_indicator (x : String) (cs : List String) (hnd : cs.Nodup) (hx : x ∈ cs) :
    (cs.map (fun c => if x = c then 1 else 0)).sum = 1 := by
  induction cs with
  | nil => cases hx
  | cons a t ih =>
    rcases List.nodup_cons.mp hnd with ⟨ha, hnt⟩
    rcases List.mem_cons.mp hx with h | h
    · subst h
      have hz : (t.map (fun c => if x = c then 1 else 0)).sum = 0 := by
        apply List.sum_eq_zero
        intro v hv
        rcases List.mem_map.mp hv with ⟨c, hc, hcv⟩
        have hxc : x ≠ c := fun hxc => ha (hxc.symm ▸ hc)
        rw [if_neg hxc] at hcv
        omega
      simp [hz]
    · have hxa : x ≠ a := fun hxa => ha (hxa.symm ▸ h)
      simp [hxa, ih hnt h]

/-- Partitioning a count over the distinct values of a second field: summing
`countP (p r ∧ g r = c)` over a duplicate-free list `cs` that covers the
`g`-values of the records satisfying `p` yields `countP p`. -/
theorem sum_countP_partition (g : SaleRecord → String) (p : SaleRecord → Bool)
    (cs : List String) (rs : List SaleRecord) (hnd : cs.Nodup)
    (hcov : ∀ r ∈ rs, p r = true → g r ∈ cs) :
    (cs.map (fun c => rs.countP (fun r => p r && g r == c))).sum = rs.countP p := by
  induction rs with
  | nil => simp
  | cons a t ih =>
    have hcovt : ∀ r ∈ t, p r = true → g r ∈ cs :=
      fun r hr => hcov r (List.mem_cons_of_mem _ hr)
    by_cases hpa : p a = true
    · have hstep : ∀ c, (a :: t).countP (fun r => p r && g r == c)
          = t.countP (fun r => p r && g r == c) + (if g a = c then 1 else 0) := by
        intro c
        rw [List.countP_cons]
        simp [hpa]
      simp only [hstep]
      rw [sum_map_add_nat, ih hcovt,
        sum_map_indicator (g a) cs hnd (hcov a (List.mem_cons_self a t) hpa),
        List.countP_cons]
      simp [hpa]
    · have hstep : ∀ c, (a :: t).countP (fun r => p r && g r == c)
          = t.countP (fun r => p r && g r == c) := by
        intro c
        rw [List.countP_cons]
        simp [hpa]
      simp only [hstep]
      rw [ih hcovt, List.countP_cons]
      simp [hpa]

/-- Counting a conjunction of boolean predicates is symmetric. -/
theorem countP_bool_and_comm (p q : SaleRecord → Bool) (l : List SaleRecord) :
    l.countP (fun r => p r && q r) = l.countP (fun r => q r && p r) := by
  induction l with
  | nil => rfl
  | cons a t ih => rw [List.countP_cons, List.countP_cons, ih, Bool.and_comm]

/-- Zipping a list with a mapped copy of itself pairs each element with its
image. -/
theorem zip_self_map (l : List String) (f : String → List Nat) :
    l.zip (l.map f) = l.map (fun x => (x, f x)) := by
  induction l with
  | nil => rfl
  | cons a t ih => simp [ih]

/-- Reading a mapped list with a default, within bounds, reads the source
list with its own default. -/
theorem getD_map_of_lt {β : Type} (d : β) (g : String → β) (l : List String) (i : Nat)
    (hi : i < l.length) : (l.map g).getD i d = g (l.getD i "") := by
  rw [List.getD_eq_getElem (l.map g) d (by simpa using hi), List.getElem_map,
    List.getD_eq_getElem l "" hi]

/-! Claim C6: empty input gives defined empty outputs. -/

/-- C6: each of the four aggregations returns a defined empty result on the
empty record subsequence: `yearly_sales` and `monthly_sales` have no rows,
every `groupby(...).agg` summary has no rows, and the cross-tabulation has
no labels and no cells. -/
theorem aggregations_empty_input :
    countByYear [] = [] ∧ (countByYearMonth []).entries = [] ∧
      (∀ key : SaleRecord → String, groupSummary key [] = []) ∧
      ∀ rowF colF : SaleRecord → String,
        (crossTabulate rowF colF []).rowLabels = [] ∧
          (crossTabulate rowF colF []).colLabels = [] ∧
          (crossTabulate rowF colF []).cells = [] :=
  ⟨rfl, rfl, fun _ => rfl, fun _ _ => ⟨rfl, rfl, rfl⟩⟩

/-! Claim C5: the month axis is the fixed calendar-order label set. -/

/-- C5: for every input, `monthly_sales` exposes the categorical month axis
as the fixed calendar-ordered list Jan..Dec (the `month_order` list of line
163); that list differs from its own lexical sort, and on an input whose
records arrive Feb-first it differs from first-seen insertion order. -/
theorem countByYearMonth_calendar_labels (rs : List SaleRecord) :
    (countByYearMonth rs).monthLabels =
      ["Jan", "Feb", "Mar", "Apr", "May", "Jun",
       "Jul", "Aug", "Sep", "Oct", "Nov", "Dec"] ∧
      (countByYearMonth rs).monthLabels ≠
        ((countByYearMonth rs).monthLabels).insertionSort (fun a b => strLe a b = true) ∧
      (countByYearMonth [rec2, rec1]).monthLabels ≠ [rec2.monthName, rec1.monthName] := by
  have h1 : (countByYearMonth rs).monthLabels =
      ["Jan", "Feb", "Mar", "Apr", "May", "Jun",
       "Jul", "Aug", "Sep", "Oct", "Nov", "Dec"] := rfl
  refine ⟨h1, ?_, by decide⟩
  rw [h1]
  decide

/-! Claim C8: the derived columns agree with the sale date. -/

/-- C8: every record produced by `load_data` has Year equal to the decimal
string of its sale date's year, Month equal to the sale date's month number
(which lies in 1..12 for valid dates), and MonthName equal to the fixed
abbreviation of that month. -/
theorem load_data_derived_fields (rows : List RawRow)
    (hv : ∀ r ∈ rows, 1 ≤ r.saleDate.month ∧ r.saleDate.month ≤ 12) :
    ∀ rec ∈ load_data rows,
      rec.year = toString rec.saleDate.year ∧
        rec.month = rec.saleDate.month ∧
        1 ≤ rec.month ∧ rec.month ≤ 12 ∧
        rec.monthName = monthAbbrev rec.saleDate.month := by
  intro rec hrec
  rcases List.mem_map.mp hrec with ⟨row, hrow, hmk⟩
  rcases hv row hrow with ⟨h1, h2⟩
  subst hmk
  exact ⟨rfl, rfl, h1, h2, rfl⟩

/-- Witness for C8 on a concrete one-row load. -/
theorem load_data_derived_fields_witness :
    (∀ r ∈ [row1], 1 ≤ r.saleDate.month ∧ r.saleDate.month ≤ 12) ∧
      ∀ rec ∈ load_data [row1],
        rec.year = toString rec.saleDate.year ∧
          rec.month = rec.saleDate.month ∧
          1 ≤ rec.month ∧ rec.month ≤ 12 ∧
          rec.monthName = monthAbbrev rec.saleDate.month :=
  ⟨by decide, load_data_derived_fields [row1] (by decide)⟩

/-! Claim C2: group summaries. -/

/-- C2: `groupSummary` emits exactly one row per distinct key value present
in the input and no others; each emitted row's count is the number of input
records with that key value, its sum is the sum of their Price fields, and
its mean is sum / count. -/
theorem groupSummary_spec (key : SaleRecord → String) (rs : List SaleRecord) :
    ((groupSummary key rs).map GroupRow.key).Nodup ∧
      (∀ s, s ∈ (groupSummary key rs).map GroupRow.key ↔ ∃ r ∈ rs, key r = s) ∧
      ∀ g ∈ groupSummary key rs,
        g.count = rs.countP (fun r => key r == g.key) ∧
          g.sum = ((rs.filter (fun r => key r == g.key)).map (fun r => r.price)).sum ∧
          g.mean = g.sum / (g.count : ℚ) := by
  have hkeys : (groupSummary key rs).map GroupRow.key = sortedUnique key rs := by
    unfold groupSummary
    rw [List.map_map]
    have hid : (GroupRow.key ∘ fun k =>
        let grp := rs.filter (fun r => key r == k)
        let s : ℚ := (grp.map (fun r => r.price)).sum
        ({ key := k, count := grp.length, sum := s,
           mean := s / (grp.length : ℚ) } : GroupRow)) = id := by
      funext k
      rfl
    rw [hid, List.map_id]
  refine ⟨?_, ?_, ?_⟩
  · rw [hkeys]
    exact nodup_sortedUnique key rs
  · intro s
    rw [hkeys]
    exact mem_sortedUnique key rs s
  · intro g hg
    rcases List.mem_map.mp hg with ⟨k, hk, hgk⟩
    subst hgk
    refine ⟨?_, rfl, rfl⟩
    simp [List.countP_eq_length_filter]

/-- Witness for C2 on a one-record dataset. -/
theorem groupSummary_spec_witness :
    delhiRow ∈ groupSummary (fun r => r.city) [rec1] ∧
      (delhiRow.count = [rec1].countP (fun r => r.city == delhiRow.key) ∧
        delhiRow.sum = (([rec1].filter (fun r => r.city == delhiRow.key)).map
          (fun r => r.price)).sum ∧
        delhiRow.mean = delhiRow.sum / (delhiRow.count : ℚ)) := by
  have hmem : delhiRow ∈ groupSummary (fun r => r.city) [rec1] := by
    simp [groupSummary, sortedUnique, rec1, delhiRow, List.insertionSort,
      List.orderedInsert, GroupRow.mk.injEq]
  exact ⟨hmem, (groupSummary_spec (fun r => r.city) [rec1]).2.2 delhiRow hmem⟩

/-! Claim C3: shape and cells of the cross-tabulation. -/

/-- C3: the cross-tabulation's row labels are exactly the distinct rowField
values present in the input and its column labels exactly the distinct
colField values; the matrix is dense (one cell row per row label, each as
wide as the column label list), and the (i, j) cell counts the records
whose rowField and colField equal the i-th row label and the j-th column
label, so label pairs with no matching records hold an explicit 0 cell
rather than being absent. -/
theorem crossTabulate_spec (rowF colF : SaleRecord → String) (rs : List SaleRecord) :
    (crossTabulate rowF colF rs).rowLabels.Nodup ∧
      (∀ s, s ∈ (crossTabulate rowF colF rs).rowLabels ↔ ∃ r ∈ rs, rowF r = s) ∧
      (crossTabulate rowF colF rs).colLabels.Nodup ∧
      (∀ s, s ∈ (crossTabulate rowF colF rs).colLabels ↔ ∃ r ∈ rs, colF r = s) ∧
      (crossTabulate rowF colF rs).cells.length =
        (crossTabulate rowF colF rs).rowLabels.length ∧
      (∀ row ∈ (crossTabulate rowF colF rs).cells,
        row.length = (crossTabulate rowF colF rs).colLabels.length) ∧
      ∀ i j, i < (crossTabulate rowF colF rs).rowLabels.length →
        j < (crossTabulate rowF colF rs).colLabels.length →
        ((crossTabulate rowF colF rs).cells.getD i []).getD j 0 =
          rs.countP (fun r =>
            rowF r == (crossTabulate rowF colF rs).rowLabels.getD i "" &&
              colF r == (crossTabulate rowF colF rs).colLabels.getD j "") := by
  refine ⟨nodup_sortedUnique rowF rs, fun s => mem_sortedUnique rowF rs s,
    nodup_sortedUnique colF rs, fun s => mem_sortedUnique colF rs s,
    by simp [crossTabulate], ?_, ?_⟩
  · intro row hrow
    rcases List.mem_map.mp hrow with ⟨rl, hrl, hrow2⟩
    rw [← hrow2]
    simp [crossTabulate]
  · intro i j hi hj
    have hi2 : i < (sortedUnique rowF rs).length := hi
    have hj2 : j < (sortedUnique colF rs).length := hj
    show (((sortedUnique rowF rs).map (fun rl => (sortedUnique colF rs).map
        (fun cl => rs.countP (fun r => rowF r == rl && colF r == cl)))).getD i []).getD j 0 =
      rs.countP (fun r => rowF r == (sortedUnique rowF rs).getD i "" &&
        colF r == (sortedUnique colF rs).getD j "")
    have h1 : ((sortedUnique rowF rs).map (fun rl => (sortedUnique colF rs).map
        (fun cl => rs.countP (fun r => rowF r == rl && colF r == cl)))).getD i [] =
        (sortedUnique colF rs).map (fun cl => rs.countP (fun r =>
          rowF r == (sortedUnique rowF rs).getD i "" && colF r == cl)) := by
      simpa using getD_map_of_lt []
        (fun rl => (sortedUnique colF rs).map
          (fun cl => rs.countP (fun r => rowF r == rl && colF r == cl)))
        (sortedUnique rowF rs) i hi2
    have h2 : ((sortedUnique colF rs).map (fun cl => rs.countP (fun r =>
        rowF r == (sortedUnique rowF rs).getD i "" && colF r == cl))).getD j 0 =
        rs.countP (fun r => rowF r == (sortedUnique rowF rs).getD i "" &&
          colF r == (sortedUnique colF rs).getD j "") := by
      simpa using getD_map_of_lt 0
        (fun cl => rs.countP (fun r =>
          rowF r == (sortedUnique rowF rs).getD i "" && colF r == cl))
        (sortedUnique colF rs) j hj2
    rw [h1, h2]

/-- Witness for C3 at the sample scenario: the Delhi cell row is dense and
the (Delhi, Petrol) cell counts the two Delhi Petrol records. -/
theorem crossTabulate_spec_witness :
    [0, 2] ∈ (crossTabulate (fun r => r.city) (fun r => r.fuelType) sampleRecords).cells ∧
      ([0, 2] : List Nat).length =
        (crossTabulate (fun r => r.city) (fun r => r.fuelType)
          sampleRecords).colLabels.length ∧
      0 < (crossTabulate (fun r => r.city) (fun r => r.fuelType)
        sampleRecords).rowLabels.length ∧
      1 < (crossTabulate (fun r => r.city) (fun r => r.fuelType)
        sampleRecords).colLabels.length ∧
      ((crossTabulate (fun r => r.city) (fun r => r.fuelType)
          sampleRecords).cells.getD 0 []).getD 1 0 =
        sampleRecords.countP (fun r =>
          r.city == (crossTabulate (fun r => r.city) (fun r => r.fuelType)
            sampleRecords).rowLabels.getD 0 "" &&
            r.fuelType == (crossTabulate (fun r => r.city) (fun r => r.fuelType)
              sampleRecords).colLabels.getD 1 "") := by
  have h := crossTabulate_spec (fun r => r.city) (fun r => r.fuelType) sampleRecords
  exact ⟨by decide, h.2.2.2.2.2.1 [0, 2] (by decide), by decide, by decide,
    h.2.2.2.2.2.2 0 1 (by decide) (by decide)⟩

/-! Claim C7: cross-tabulation totals. -/

/-- C7: the cells of the cross-tabulation sum to the number of input
records; each cell row sums to the count of records carrying its row label,
and each cell column sums to the count of records carrying its column
label. -/
theorem crossTab_totals (rowF colF : SaleRecord → String) (rs : List SaleRecord) :
    ((crossTabulate rowF colF rs).cells.map List.sum).sum = rs.length ∧
      (∀ p ∈ (crossTabulate rowF colF rs).rowLabels.zip
          (crossTabulate rowF colF rs).cells,
        p.2.sum = rs.countP (fun r => rowF r == p.1)) ∧
      ∀ j, j < (crossTabulate rowF colF rs).colLabels.length →
        ((crossTabulate rowF colF rs).cells.map (fun row => row.getD j 0)).sum =
          rs.countP (fun r =>
            colF r == (crossTabulate rowF colF rs).colLabels.getD j "") := by
  have hrowsum : ∀ rl, ((sortedUnique colF rs).map
      (fun cl => rs.countP (fun r => rowF r == rl && colF r == cl))).sum
        = rs.countP (fun r => rowF r == rl) := by
    intro rl
    exact sum_countP_partition colF (fun r => rowF r == rl) (sortedUnique colF rs) rs
      (nodup_sortedUnique colF rs)
      (fun r hr _ => (mem_sortedUnique colF rs (colF r)).mpr ⟨r, hr, rfl⟩)
  refine ⟨?_, ?_, ?_⟩
  · show (((sortedUnique rowF rs).map (fun rl => (sortedUnique colF rs).map
        (fun cl => rs.countP (fun r => rowF r == rl && colF r == cl)))).map
          List.sum).sum = rs.length
    rw [List.map_map]
    have hcomp : (List.sum ∘ fun rl => (sortedUnique colF rs).map
        (fun cl => rs.countP (fun r => rowF r == rl && colF r == cl)))
          = fun rl => rs.countP (fun r => rowF r == rl) := by
      funext rl
      exact hrowsum rl
    rw [hcomp]
    have h2 := sum_countP_partition rowF (fun _ => true) (sortedUnique rowF rs) rs
      (nodup_sortedUnique rowF rs)
      (fun r hr _ => (mem_sortedUnique rowF rs (rowF r)).mpr ⟨r, hr, rfl⟩)
    simp only [Bool.true_and] at h2
    rw [h2, congrFun List.countP_true rs]
  · intro p hp
    have hp2 : p ∈ (sortedUnique rowF rs).zip ((sortedUnique rowF rs).map
        (fun rl => (sortedUnique colF rs).map
          (fun cl => rs.countP (fun r => rowF r == rl && colF r == cl)))) := hp
    rw [zip_self_map] at hp2
    rcases List.mem_map.mp hp2 with ⟨rl, hrl, hp3⟩
    rw [← hp3]
    simpa using hrowsum rl
  · intro j hj
    have hj2 : j < (sortedUnique colF rs).length := hj
    have hget : ∀ rl, ((sortedUnique colF rs).map
        (fun cl => rs.countP (fun r => rowF r == rl && colF r == cl))).getD j 0
          = rs.countP (fun r => rowF r == rl &&
              colF r == (sortedUnique colF rs).getD j "") := by
      intro rl
      rw [List.getD_eq_getElem _ _ (by simpa using hj2), List.getElem_map,
        List.getD_eq_getElem _ _ hj2]
    show (((sortedUnique rowF rs).map (fun rl => (sortedUnique colF rs).map
        (fun cl => rs.countP (fun r => rowF r == rl && colF r == cl)))).map
          (fun row => row.getD j 0)).sum = _
    rw [List.map_map]
    have hcomp2 : ((fun row : List Nat => row.getD j 0) ∘ fun rl =>
        (sortedUnique colF rs).map
          (fun cl => rs.countP (fun r => rowF r == rl && colF r == cl)))
          = fun rl => rs.countP (fun r => rowF r == rl &&
              colF r == (sortedUnique colF rs).getD j "") := by
      funext rl
      exact hget rl
    rw [hcomp2]
    have hswap : (fun rl => rs.countP (fun r => rowF r == rl &&
        colF r == (sortedUnique colF rs).getD j ""))
          = fun rl => rs.countP (fun r =>
              (colF r == (sortedUnique colF rs).getD j "") && rowF r == rl) := by
      funext rl
      exact countP_bool_and_comm (fun r => rowF r == rl)
        (fun r => colF r == (sortedUnique colF rs).getD j "") rs
    rw [hswap]
    exact sum_countP_partition rowF
      (fun r => colF r == (sortedUnique colF rs).getD j "")
      (sortedUnique rowF rs) rs (nodup_sortedUnique rowF rs)
      (fun r hr _ => (mem_sortedUnique rowF rs (rowF r)).mpr ⟨r, hr, rfl⟩)

/-- Witness for C7 at the sample scenario. -/
theorem crossTab_totals_witness :
    ((crossTabulate (fun r => r.city) (fun r => r.fuelType) sampleRecords).cells.map
      List.sum).sum = sampleRecords.length ∧
      (("Delhi", [0, 2]) ∈ (crossTabulate (fun r => r.city) (fun r => r.fuelType)
          sampleRecords).rowLabels.zip
            (crossTabulate (fun r => r.city) (fun r => r.fuelType) sampleRecords).cells ∧
        (("Delhi", [0, 2]) : String × List Nat).2.sum =
          sampleRecords.countP (fun r =>
            r.city == (("Delhi", [0, 2]) : String × List Nat).1)) ∧
      (0 < (crossTabulate (fun r => r.city) (fun r => r.fuelType)
          sampleRecords).colLabels.length ∧
        ((crossTabulate (fun r => r.city) (fun r => r.fuelType) sampleRecords).cells.map
          (fun row => row.getD 0 0)).sum =
          sampleRecords.countP (fun r => r.fuelType ==
            (crossTabulate (fun r => r.city) (fun r => r.fuelType)
              sampleRecords).colLabels.getD 0 "")) := by
  have h := crossTab_totals (fun r => r.city) (fun r => r.fuelType) sampleRecords
  exact ⟨h.1, ⟨by decide, h.2.1 ("Delhi", [0, 2]) (by decide)⟩,
    ⟨by decide, h.2.2 0 (by decide)⟩⟩
